import Mathlib

/-!
# Verification of the Q1 disposable-income model

Shallow embedding of `src/q1` (tax_calculator.py, expenditure_model.py,
disposable_income.py, constants.py).

Modelling conventions:
* Python floats carrying money/rates are modelled as `ℚ` in the tax engine
  (all constants are finite decimals) and as `ℝ` in the expenditure engine,
  where the Engel power law `ratio ** beta` is a real power (`Real.rpow`).
* `round(x, 2)` / `round(x, 4)` are modelled by `round2` / `round4`
  (round to the nearest cent / nearest 10⁻⁴).
* Python `raise ValueError` paths are modelled with `Except Err`; the error
  kinds follow the specification's names (InvalidInput, UnknownJurisdiction,
  OutOfRange) plus `indexError` for Python's IndexError on an empty schedule.
* Python dicts of constants are association lists queried with `dictLookup`;
  `d.get(k, default)` is `(dictLookup d k).getD default`.
* The externally loaded expenditure table (`exp_data`) is modelled as a
  structure of total maps, matching the data-loading contract that every age
  group / region row is present; the inner `row.get(cat, 0.0)` defaults are
  what the total maps represent.
-/

/-- `round(x, 2)` — round to the nearest cent. -/
def round2 {α : Type} [LinearOrderedField α] [FloorRing α] (x : α) : α :=
  ((round (x * 100) : ℤ) : α) / 100

/-- `round(x, 4)` — round to the nearest 10⁻⁴. -/
def round4 {α : Type} [LinearOrderedField α] [FloorRing α] (x : α) : α :=
  ((round (x * 10000) : ℤ) : α) / 10000

/-- Python-dict lookup on an association list (`k in d` / `d[k]`). -/
def dictLookup {α : Type} : List (String × α) → String → Option α
  | [], _ => none
  | (k, v) :: rest, key => if k = key then some v else dictLookup rest key

/-- Error kinds of the model (spec §7), plus Python's IndexError. -/
inductive Err where
  | invalidInput
  | unknownJurisdiction
  | outOfRange
  | indexError
deriving DecidableEq

/-! ## constants.py -/

/-- constants.py: `STANDARD_DEDUCTION_SINGLE = 15_000`. -/
def STANDARD_DEDUCTION_SINGLE : ℚ := 15000

/-- constants.py: `FEDERAL_BRACKETS_SINGLE_2025`; `none` = top bracket. -/
def FEDERAL_BRACKETS_SINGLE_2025 : List (Option ℚ × ℚ) :=
  [(some 11925, 0.10), (some 48475, 0.12), (some 103350, 0.22),
   (some 197300, 0.24), (some 250525, 0.32), (some 626350, 0.35),
   (none, 0.37)]

/-- constants.py: `SS_RATE = 0.062`. -/
def SS_RATE : ℚ := 0.062

/-- constants.py: `SS_WAGE_BASE = 176_100`. -/
def SS_WAGE_BASE : ℚ := 176100

/-- constants.py: `MEDICARE_RATE = 0.0145`. -/
def MEDICARE_RATE : ℚ := 0.0145

/-- constants.py: `MEDICARE_SURCHARGE_RATE = 0.009`. -/
def MEDICARE_SURCHARGE_RATE : ℚ := 0.009

/-- constants.py: `MEDICARE_SURCHARGE_THRESHOLD = 200_000`. -/
def MEDICARE_SURCHARGE_THRESHOLD : ℚ := 200000

/-- constants.py: `STATE_TAX_SCHEDULE` — per-state breakpoints. -/
def STATE_TAX_SCHEDULE : List (String × List (ℚ × ℚ)) :=
  [("Texas", [(0, 0.0)]),
   ("Florida", [(0, 0.0)]),
   ("Nevada", [(0, 0.0)]),
   ("Washington", [(0, 0.0)]),
   ("Wyoming", [(0, 0.0)]),
   ("Illinois", [(0, 0.020), (30000, 0.040), (50000, 0.046), (75000, 0.048),
                 (100000, 0.049), (200000, 0.049)]),
   ("Georgia", [(0, 0.00), (20000, 0.025), (40000, 0.038), (60000, 0.042),
                (85000, 0.044), (150000, 0.047), (300000, 0.049)]),
   ("New York", [(0, 0.00), (20000, 0.030), (40000, 0.045), (65000, 0.055),
                 (100000, 0.060), (150000, 0.065), (300000, 0.070),
                 (500000, 0.080), (1000000, 0.090)]),
   ("California", [(0, 0.00), (20000, 0.030), (40000, 0.052), (65000, 0.068),
                   (100000, 0.078), (150000, 0.085), (300000, 0.095),
                   (500000, 0.105), (1000000, 0.120)]),
   ("Pennsylvania", [(0, 0.0307)]),
   ("Ohio", [(0, 0.00), (26050, 0.025), (100000, 0.033), (115300, 0.040)]),
   ("Michigan", [(0, 0.0425)]),
   ("North Carolina", [(0, 0.045)]),
   ("Virginia", [(0, 0.00), (17000, 0.020), (17001, 0.030), (17001, 0.050),
                 (50000, 0.055), (100000, 0.057), (200000, 0.058)]),
   ("Colorado", [(0, 0.044)]),
   ("Arizona", [(0, 0.025)]),
   ("Massachusetts", [(0, 0.050)]),
   ("Tennessee", [(0, 0.0)])]

/-- constants.py: `STATE_TO_REGION` — state → BLS region. -/
def STATE_TO_REGION : List (String × String) :=
  [("Connecticut", "Northeast"), ("Maine", "Northeast"),
   ("Massachusetts", "Northeast"), ("New Hampshire", "Northeast"),
   ("Rhode Island", "Northeast"), ("Vermont", "Northeast"),
   ("New Jersey", "Northeast"), ("New York", "Northeast"),
   ("Pennsylvania", "Northeast"),
   ("Illinois", "Midwest"), ("Indiana", "Midwest"), ("Michigan", "Midwest"),
   ("Ohio", "Midwest"), ("Wisconsin", "Midwest"), ("Iowa", "Midwest"),
   ("Kansas", "Midwest"), ("Minnesota", "Midwest"), ("Missouri", "Midwest"),
   ("Nebraska", "Midwest"), ("North Dakota", "Midwest"),
   ("South Dakota", "Midwest"),
   ("Delaware", "South"), ("Florida", "South"), ("Georgia", "South"),
   ("Maryland", "South"), ("North Carolina", "South"),
   ("South Carolina", "South"), ("Virginia", "South"),
   ("West Virginia", "South"), ("District of Columbia", "South"),
   ("Alabama", "South"), ("Kentucky", "South"), ("Mississippi", "South"),
   ("Tennessee", "South"), ("Arkansas", "South"), ("Louisiana", "South"),
   ("Oklahoma", "South"), ("Texas", "South"),
   ("Arizona", "West"), ("Colorado", "West"), ("Idaho", "West"),
   ("Montana", "West"), ("Nevada", "West"), ("New Mexico", "West"),
   ("Utah", "West"), ("Wyoming", "West"), ("Alaska", "West"),
   ("California", "West"), ("Hawaii", "West"), ("Oregon", "West"),
   ("Washington", "West")]

/-- constants.py: `ESSENTIAL_FRACTIONS` (alpha per category). -/
def ESSENTIAL_FRACTIONS : List (String × ℚ) :=
  [("Food", 0.70), ("Housing", 1.00),
   ("Utilities, fuel, public services", 1.00),
   ("Household operations", 0.50), ("Housekeeping supplies", 0.70),
   ("Household furnishings and equipement", 0.20),
   ("Apparel and services", 0.60), ("Transportation", 0.75),
   ("Healthcare", 1.00), ("Entertainment", 0.00), ("Personal care", 0.80),
   ("Education", 0.50), ("Miscellaneous", 0.00), ("Personal insurance", 0.10)]

/-- constants.py: `INCOME_ELASTICITY` (beta per category). -/
def INCOME_ELASTICITY : List (String × ℚ) :=
  [("Food", 0.55), ("Housing", 0.70),
   ("Utilities, fuel, public services", 0.60),
   ("Household operations", 0.90), ("Housekeeping supplies", 0.75),
   ("Household furnishings and equipement", 1.10),
   ("Apparel and services", 0.85), ("Transportation", 0.80),
   ("Healthcare", 0.65), ("Entertainment", 1.20), ("Personal care", 0.75),
   ("Education", 0.90), ("Miscellaneous", 1.00), ("Personal insurance", 0.95)]

/-- constants.py: `AVG_INCOME_BY_AGE` — fallback age-group incomes. -/
def AVG_INCOME_BY_AGE : List (String × ℚ) :=
  [("Under 25", 42000), ("25-34", 62000), ("35-44", 83000), ("45-54", 88000),
   ("55-64", 80000), ("65-74", 58000), ("75 and older", 44000)]

/-! ## tax_calculator.py -/

/-- The bracket loop of `compute_federal_tax` (tax_calculator.py lines
55-69): accumulator `tax`, running lower bound `prev_limit`; a bracket with
a finite upper bound breaks the loop once `taxable ≤ upper`. -/
def fedLoop : List (Option ℚ × ℚ) → ℚ → ℚ → ℚ → ℚ
  | [], _, tax, _ => tax
  | (none, rate) :: rest, taxable, tax, prev =>
      fedLoop rest taxable (tax + max 0 (taxable - prev) * rate) prev
  | (some upper, rate) :: rest, taxable, tax, prev =>
      let tax' := tax + max 0 (min taxable upper - prev) * rate
      if taxable ≤ upper then tax' else fedLoop rest taxable tax' upper

/-- tax_calculator.py: `compute_federal_tax`. -/
def compute_federal_tax (gross_income : ℚ) : ℚ :=
  round2 (fedLoop FEDERAL_BRACKETS_SINGLE_2025
    (max 0 (gross_income - STANDARD_DEDUCTION_SINGLE)) 0 0)

/-- tax_calculator.py: `compute_effective_federal_rate`. -/
def compute_effective_federal_rate (gross_income : ℚ) : ℚ :=
  if gross_income ≤ 0 then 0 else compute_federal_tax gross_income / gross_income

/-- The dict returned by `compute_fica`. -/
structure Fica where
  social_security : ℚ
  medicare : ℚ
  medicare_base : ℚ
  medicare_surcharge : ℚ
  total : ℚ

/-- tax_calculator.py: `compute_fica`. -/
def compute_fica (gross_income : ℚ) : Fica :=
  let ss_taxable := min gross_income SS_WAGE_BASE
  let social_security := round2 (ss_taxable * SS_RATE)
  let medicare_base := round2 (gross_income * MEDICARE_RATE)
  let medicare_surcharge :=
    if gross_income > MEDICARE_SURCHARGE_THRESHOLD then
      round2 ((gross_income - MEDICARE_SURCHARGE_THRESHOLD) *
        MEDICARE_SURCHARGE_RATE)
    else 0
  let medicare_total := round2 (medicare_base + medicare_surcharge)
  { social_security := social_security
    medicare := medicare_total
    medicare_base := medicare_base
    medicare_surcharge := medicare_surcharge
    total := round2 (social_security + medicare_total) }

/-- The breakpoint-scanning loop of `_interpolate_rate` (tax_calculator.py
lines 140-147): first pair of consecutive breakpoints with
`lo.1 ≤ income ≤ hi.1`; a zero-width segment returns the lower rate. -/
def findSegRate : List (ℚ × ℚ) → ℚ → Option ℚ
  | lo :: hi :: rest, income =>
      if lo.1 ≤ income ∧ income ≤ hi.1 then
        if hi.1 = lo.1 then some lo.2
        else some (lo.2 + (income - lo.1) / (hi.1 - lo.1) * (hi.2 - lo.2))
      else findSegRate (hi :: rest) income
  | _, _ => none

/-- tax_calculator.py: `_interpolate_rate`.  `none` only when the schedule
is empty (Python would raise IndexError on `schedule[-1]`). -/
def interpolate_rate (schedule : List (ℚ × ℚ)) (income : ℚ) : Option ℚ :=
  if schedule.length = 1 then schedule.head?.map Prod.snd
  else
    match findSegRate schedule income with
    | some r => some r
    | none => schedule.getLast?.map Prod.snd

/-- tax_calculator.py: `compute_state_tax`. -/
def compute_state_tax (gross_income : ℚ) (state : String) : Except Err ℚ :=
  match dictLookup STATE_TAX_SCHEDULE state with
  | none => .error .unknownJurisdiction
  | some schedule =>
    match interpolate_rate schedule gross_income with
    | some effective_rate => .ok (round2 (gross_income * effective_rate))
    | none => .error .indexError

/-- The dict returned by `compute_all_taxes`. -/
structure AllTaxes where
  federal : ℚ
  fica : Fica
  state : ℚ
  total : ℚ
  effective_total_rate : ℚ
  effective_federal_rate : ℚ
  effective_state_rate : ℚ

/-- tax_calculator.py: `compute_all_taxes`. -/
def compute_all_taxes (gross_income : ℚ) (state : String) :
    Except Err AllTaxes := do
  let federal := compute_federal_tax gross_income
  let fica := compute_fica gross_income
  let state_tax ← compute_state_tax gross_income state
  let total := round2 (federal + fica.total + state_tax)
  .ok { federal := federal
        fica := fica
        state := state_tax
        total := total
        effective_total_rate := if gross_income > 0 then total / gross_income else 0
        effective_federal_rate := if gross_income > 0 then federal / gross_income else 0
        effective_state_rate := if gross_income > 0 then state_tax / gross_income else 0 }

/-! ## expenditure_model.py -/

/-- expenditure_model.py: `_AGE_BREAKS`. -/
def AGE_BREAKS : List (ℤ × ℤ × String) :=
  [(0, 24, "Under 25"), (25, 34, "25-34"), (35, 44, "35-44"),
   (45, 54, "45-54"), (55, 64, "55-64"), (65, 74, "65-74"),
   (75, 999, "75 and older")]

/-- The scanning loop of `get_age_group`: first band with `lo ≤ age ≤ hi`. -/
def findAgeGroup : List (ℤ × ℤ × String) → ℤ → Option String
  | [], _ => none
  | (lo, hi, label) :: rest, age =>
      if lo ≤ age ∧ age ≤ hi then some label else findAgeGroup rest age

/-- expenditure_model.py: `get_age_group` (raises outside 0–999). -/
def get_age_group (age : ℤ) : Except Err String :=
  match findAgeGroup AGE_BREAKS age with
  | some label => .ok label
  | none => .error .outOfRange

/-- expenditure_model.py: `get_region_for_state`. -/
def get_region_for_state (state : String) : Except Err String :=
  match dictLookup STATE_TO_REGION state with
  | some region => .ok region
  | none => .error .unknownJurisdiction

/-- expenditure_model.py: `_scale_expenditure` — Engel power-law scaling.
`ratio ** beta` on a positive float ratio is the real power `rpow`. -/
noncomputable def scale_expenditure
    (bls_amount salary avg_income beta : ℝ) : ℝ :=
  if avg_income ≤ 0 ∨ salary ≤ 0 then bls_amount
  else bls_amount * (salary / avg_income) ^ beta

/-- Per-category row of the `by_category` breakdown. -/
structure CatInfo where
  bls_age : ℝ
  bls_region : ℝ
  bls_blended : ℝ
  scaled : ℝ
  alpha : ℝ
  beta : ℝ
  essential : ℝ

/-- The dict returned by `compute_essential_expenses`. -/
structure ExpResult where
  total_essential : ℝ
  total_all : ℝ
  by_category : List (String × CatInfo)
  age_group : String
  region : String
  avg_income_for_age_group : ℚ
  income_ratio : ℝ

/-- The `exp_data` structure produced by the external loader
(data_loader.py).  The loader contract guarantees every age-group and
region row exists, so the two tables are total maps of age-group/region and
category; the code reads a category with `row.get(cat, 0.0)`, which the
total map represents directly.  `mean_income_by_age` keeps the
`dict.get`-with-fallback shape of the code. -/
structure ExpData where
  categories : List String
  by_age : String → String → ℚ
  by_region : String → String → ℚ
  mean_income_by_age : String → Option ℚ

/-- One iteration of the category loop in `compute_essential_expenses`
(expenditure_model.py lines 228-254). -/
noncomputable def categoryRow (d : ExpData) (age_group region : String)
    (w_age w_reg salary avg_income : ℚ) (cat : String) : CatInfo :=
  let age_bls := d.by_age age_group cat
  let reg_bls := d.by_region region cat
  let bls_base := w_age * age_bls + w_reg * reg_bls
  let beta := (dictLookup INCOME_ELASTICITY cat).getD 1
  let scaled :=
    scale_expenditure (bls_base : ℝ) (salary : ℝ) (avg_income : ℝ) (beta : ℝ)
  let alpha := (dictLookup ESSENTIAL_FRACTIONS cat).getD 0
  { bls_age := (age_bls : ℝ)
    bls_region := (reg_bls : ℝ)
    bls_blended := (bls_base : ℝ)
    scaled := scaled
    alpha := (alpha : ℝ)
    beta := (beta : ℝ)
    essential := scaled * (alpha : ℝ) }

/-- expenditure_model.py: `compute_essential_expenses`.  The running-sum
accumulation over categories is expressed as the sum of the mapped list
(same value: real addition is associative and commutative).  The fallback
`AVG_INCOME_BY_AGE[age_group]` is total here because `get_age_group` only
produces the seven labels present in that table. -/
noncomputable def compute_essential_expenses (salary : ℚ) (age : ℤ)
    (state : String) (exp_data : ExpData) (use_region_blend : Bool) :
    Except Err ExpResult := do
  let age_group ← get_age_group age
  let region ← get_region_for_state state
  let avg_income : ℚ :=
    (exp_data.mean_income_by_age age_group).getD
      ((dictLookup AVG_INCOME_BY_AGE age_group).getD 0)
  let w_age : ℚ := if use_region_blend then 0.6 else 1
  let w_reg : ℚ := if use_region_blend then 0.4 else 0
  let rows := exp_data.categories.map (fun cat =>
    (cat, categoryRow exp_data age_group region w_age w_reg salary avg_income cat))
  .ok { total_essential := round2 ((rows.map (fun r => r.2.essential)).sum)
        total_all := round2 ((rows.map (fun r => r.2.scaled)).sum)
        by_category := rows
        age_group := age_group
        region := region
        avg_income_for_age_group := avg_income
        income_ratio := if avg_income > 0 then (salary : ℝ) / (avg_income : ℝ) else 1 }

/-! ## disposable_income.py -/

/-- The `taxes` sub-dict of the composite result. -/
structure TaxBreakdown where
  federal : ℚ
  social_security : ℚ
  medicare : ℚ
  fica_total : ℚ
  state : ℚ
  total : ℚ

/-- The dict returned by `compute_disposable_income`. -/
structure DIResult where
  gross_income : ℚ
  age : ℤ
  state : String
  taxes : TaxBreakdown
  total_tax : ℚ
  effective_tax_rate : ℚ
  expenses : ExpResult
  total_essential : ℝ
  total_all_expenses : ℝ
  disposable_income : ℝ
  di_fraction : ℝ
  age_group : String
  region : String
  income_ratio : ℝ
  assumptions : List String

/-- disposable_income.py: `compute_disposable_income`. -/
noncomputable def compute_disposable_income (gross_income : ℚ) (age : ℤ)
    (state : String) (exp_data : ExpData) (use_region_blend : Bool) :
    Except Err DIResult :=
  if gross_income < 0 then .error .invalidInput
  else if ¬(0 ≤ age ∧ age ≤ 120) then .error .invalidInput
  else do
    let taxes ← compute_all_taxes gross_income state
    let exp_result ← compute_essential_expenses gross_income age state
      exp_data use_region_blend
    let total_tax := taxes.total
    let total_essential := exp_result.total_essential
    let disposable : ℝ := (gross_income : ℝ) - (total_tax : ℝ) - total_essential
    let di_fraction : ℝ :=
      if gross_income > 0 then disposable / (gross_income : ℝ) else 0
    .ok { gross_income := gross_income
          age := age
          state := state
          taxes := { federal := taxes.federal
                     social_security := taxes.fica.social_security
                     medicare := taxes.fica.medicare
                     fica_total := taxes.fica.total
                     state := taxes.state
                     total := total_tax }
          total_tax := total_tax
          effective_tax_rate := taxes.effective_total_rate
          expenses := exp_result
          total_essential := total_essential
          total_all_expenses := exp_result.total_all
          disposable_income := round2 disposable
          di_fraction := round4 di_fraction
          age_group := exp_result.age_group
          region := exp_result.region
          income_ratio := exp_result.income_ratio
          assumptions :=
            ["Single filer, standard deduction (15,000 USD, IRS 2025)",
             "Salary is sole income source",
             "State rates: 2025 effective rates at income level (Tax Foundation)",
             "BLS CES 2024 household expenditure, treated as individual",
             "Engel curve: constant elasticity (power law) approximation of QUAIDS",
             "No 401(k)/IRA deductions; voluntary savings treated as disposable",
             "Static model: no career progression or inflation"] }

/-- A minimal well-formed expenditure table used as a concrete test input:
the loader's 14 categories with all baseline amounts 0 and no mean-income
rows (so the static fallback incomes apply). -/
def zeroExpData : ExpData :=
  { categories := ESSENTIAL_FRACTIONS.map Prod.fst
    by_age := fun _ _ => 0
    by_region := fun _ _ => 0
    mean_income_by_age := fun _ => none }

/-- Well-formedness of a federal bracket list relative to a running lower
bound: finite upper bounds ascend from the initial `prev_limit` and the
unbounded top bracket, if present, is last.  Holds for the 2025 table. -/
def bracketsWF : ℚ → List (Option ℚ × ℚ) → Prop
  | _, [] => True
  | _, (none, _) :: rest => rest = []
  | p, (some u, _) :: rest => p ≤ u ∧ bracketsWF u rest

/-! ## Helper lemmas: rounding -/

theorem round_eq_of_bounds {α : Type} [LinearOrderedField α] [FloorRing α]
    {x : α} {n : ℤ} (h1 : (n : α) ≤ x + 1/2) (h2 : x + 1/2 < n + 1) :
    round x = n := by
  rw [round_eq]; exact Int.floor_eq_iff.mpr ⟨h1, by linarith⟩

theorem round2_eq_of {α : Type} [LinearOrderedField α] [FloorRing α]
    {x : α} {n : ℤ} (h : x * 100 = (n : α)) : round2 x = (n : α) / 100 := by
  unfold round2; rw [h, round_intCast]

theorem round2_zero {α : Type} [LinearOrderedField α] [FloorRing α] :
    round2 (0 : α) = 0 := by
  unfold round2; norm_num

theorem round4_zero {α : Type} [LinearOrderedField α] [FloorRing α] :
    round4 (0 : α) = 0 := by
  unfold round4; norm_num

theorem round2_id {α : Type} [LinearOrderedField α] [FloorRing α]
    {x : α} {n : ℤ} (h : x * 100 = (n : α)) : round2 x = x := by
  rw [round2_eq_of h]
  have h2 : x = (n : α) / 100 := by
    field_simp
    linarith
  rw [h2]

theorem round4_eq_of_bounds {α : Type} [LinearOrderedField α] [FloorRing α]
    {x : α} {n : ℤ} (h1 : (n : α) ≤ x * 10000 + 1/2)
    (h2 : x * 10000 + 1/2 < n + 1) : round4 x = (n : α) / 10000 := by
  unfold round4; rw [round_eq_of_bounds h1 h2]

theorem round_mono2 {α : Type} [LinearOrderedField α] [FloorRing α]
    {x y : α} (h : x ≤ y) : round x ≤ round y := by
  rw [round_eq, round_eq]
  exact Int.floor_le_floor (by linarith)

theorem round2_mono {α : Type} [LinearOrderedField α] [FloorRing α]
    {x y : α} (h : x ≤ y) : round2 x ≤ round2 y := by
  unfold round2
  gcongr
  exact_mod_cast round_mono2 (x := x * 100) (y := y * 100) (by linarith)

theorem round2_le_add_int {x y : ℚ} {n : ℤ} (h : y * 100 ≤ x * 100 + n) :
    round2 y ≤ round2 x + (n : ℚ) / 100 := by
  unfold round2
  have h1 : round (y * 100) ≤ round (x * 100) + n := by
    have h2 := round_mono2 (x := y * 100) (y := x * 100 + (n : ℚ)) h
    rwa [round_add_int] at h2
  have h2 : ((round (y * 100) : ℤ) : ℚ) ≤ ((round (x * 100) + n : ℤ) : ℚ) :=
    Int.cast_le.mpr h1
  push_cast at h2
  linarith

/-! ## Helper lemmas: dictionary lookup -/

theorem dictLookup_mem {α : Type} :
    ∀ (l : List (String × α)) (k : String) (v : α),
      dictLookup l k = some v → (k, v) ∈ l
  | [], _, _, h => by simp [dictLookup] at h
  | (k', v') :: rest, k, v, h => by
    by_cases he : k' = k
    · subst he
      simp [dictLookup] at h
      subst h
      exact List.mem_cons_self _ _
    · rw [dictLookup, if_neg he] at h
      exact List.mem_cons_of_mem _ (dictLookup_mem rest k v h)

/-! ## Helper lemmas: FICA projections -/

theorem compute_fica_ss (g : ℚ) :
    (compute_fica g).social_security = round2 (min g 176100 * 0.062) := rfl

theorem compute_fica_surch (g : ℚ) :
    (compute_fica g).medicare_surcharge =
      if 200000 < g then round2 ((g - 200000) * 0.009) else 0 := rfl

/-! ## Helper lemmas: the federal bracket loop -/

theorem fedLoop_tax_add (l : List (Option ℚ × ℚ)) (t tax prev : ℚ) :
    fedLoop l t tax prev = tax + fedLoop l t 0 prev := by
  induction l generalizing tax prev with
  | nil => simp [fedLoop]
  | cons hd rest ih =>
    obtain ⟨upper, rate⟩ := hd
    cases upper with
    | none =>
      simp only [fedLoop]
      rw [ih, ih (0 + _)]
      ring
    | some u =>
      simp only [fedLoop]
      by_cases h : t ≤ u
      · simp [h]
      · simp only [if_neg h]
        rw [ih, ih (0 + _)]
        ring

theorem fedLoop_nonneg (l : List (Option ℚ × ℚ)) (t prev : ℚ)
    (hr : ∀ p ∈ l, 0 ≤ p.2) : 0 ≤ fedLoop l t 0 prev := by
  induction l generalizing prev with
  | nil => simp [fedLoop]
  | cons hd rest ih =>
    obtain ⟨upper, rate⟩ := hd
    have hrate : 0 ≤ rate := hr (upper, rate) (by simp)
    have hrest : ∀ p ∈ rest, 0 ≤ p.2 := fun p hp => hr p (by simp [hp])
    have hterm : ∀ x : ℚ, 0 ≤ max 0 x * rate :=
      fun x => mul_nonneg (le_max_left 0 x) hrate
    cases upper with
    | none =>
      simp only [fedLoop]
      rw [fedLoop_tax_add]
      have := ih prev hrest
      have := hterm (t - prev)
      linarith
    | some u =>
      simp only [fedLoop]
      by_cases h : t ≤ u
      · simpa [h] using hterm (min t u - prev)
      · simp only [if_neg h]
        rw [fedLoop_tax_add]
        have := ih u hrest
        have := hterm (min t u - prev)
        linarith

theorem max0_sub_le (a b c : ℚ) (h : a ≤ b) (hc : b - a ≤ c) :
    max 0 b - max 0 a ≤ c := by
  rcases le_total b 0 with hb | hb
  · rw [max_eq_left hb]
    have : max 0 a = 0 := max_eq_left (by linarith)
    rw [this]
    linarith
  · rw [max_eq_right hb]
    have : a ≤ max 0 a := le_max_right 0 a
    linarith

theorem fedLoop_le (l : List (Option ℚ × ℚ)) (R : ℚ) (hR : 0 ≤ R)
    (hr : ∀ p ∈ l, 0 ≤ p.2 ∧ p.2 ≤ R) :
    ∀ t prev : ℚ, bracketsWF prev l → fedLoop l t 0 prev ≤ R * max 0 (t - prev) := by
  induction l with
  | nil =>
    intro t prev _
    simp only [fedLoop]
    exact mul_nonneg hR (le_max_left _ _)
  | cons hd rest ih =>
    obtain ⟨upper, rate⟩ := hd
    have hrate := hr (upper, rate) (by simp)
    have hrest : ∀ p ∈ rest, 0 ≤ p.2 ∧ p.2 ≤ R := fun p hp => hr p (by simp [hp])
    intro t prev hwf
    cases upper with
    | none =>
      have hnil : rest = [] := hwf
      subst hnil
      simp only [fedLoop]
      calc 0 + max 0 (t - prev) * rate ≤ max 0 (t - prev) * R := by
            rw [zero_add]
            exact mul_le_mul_of_nonneg_left hrate.2 (le_max_left _ _)
        _ = R * max 0 (t - prev) := mul_comm _ _
    | some u =>
      obtain ⟨hpu, hwfr⟩ := hwf
      simp only [fedLoop]
      have hterm : ∀ x : ℚ, max 0 x * rate ≤ R * max 0 x := fun x => by
        rw [mul_comm]
        exact mul_le_mul_of_nonneg_right hrate.2 (le_max_left _ _)
      by_cases h : t ≤ u
      · simp only [if_pos h]
        rw [min_eq_left h, zero_add]
        exact hterm (t - prev)
      · simp only [if_neg h]
        push_neg at h
        rw [fedLoop_tax_add]
        have h1 := ih hrest t u hwfr
        have h2 := hterm (u - prev)
        have hmax1 : max 0 (u - prev) = u - prev := max_eq_right (by linarith)
        have hmax2 : max 0 (t - u) = t - u := max_eq_right (by linarith)
        have hmax3 : max 0 (t - prev) = t - prev := max_eq_right (by linarith)
        rw [min_eq_right (le_of_lt h), hmax1, hmax3]
        rw [hmax1] at h2
        rw [hmax2] at h1
        linarith

theorem fedLoop_mono (l : List (Option ℚ × ℚ)) (hr : ∀ p ∈ l, 0 ≤ p.2)
    {a b : ℚ} (hab : a ≤ b) :
    ∀ prev : ℚ, fedLoop l a 0 prev ≤ fedLoop l b 0 prev := by
  induction l with
  | nil => intro prev; simp [fedLoop]
  | cons hd rest ih =>
    obtain ⟨upper, rate⟩ := hd
    have hrate : 0 ≤ rate := hr (upper, rate) (by simp)
    have hrest : ∀ p ∈ rest, 0 ≤ p.2 := fun p hp => hr p (by simp [hp])
    intro prev
    have hmm : ∀ x y : ℚ, x ≤ y → max 0 x * rate ≤ max 0 y * rate := by
      intro x y hxy
      exact mul_le_mul_of_nonneg_right (max_le_max le_rfl hxy) hrate
    cases upper with
    | none =>
      simp only [fedLoop]
      rw [fedLoop_tax_add, fedLoop_tax_add rest b (0 + max 0 (b - prev) * rate)]
      have := ih hrest prev
      have := hmm (a - prev) (b - prev) (by linarith)
      linarith
    | some u =>
      simp only [fedLoop]
      by_cases hb : b ≤ u
      · have ha : a ≤ u := le_trans hab hb
        simp only [if_pos ha, if_pos hb, zero_add]
        exact hmm _ _ (by simp [min_le_min hab le_rfl])
      · by_cases ha : a ≤ u
        · simp only [if_pos ha, if_neg hb]
          rw [fedLoop_tax_add]
          have h1 : 0 ≤ fedLoop rest b 0 u := fedLoop_nonneg rest b u hrest
          have h2 := hmm (min a u - prev) (min b u - prev)
            (by have := min_le_min hab (le_refl u); linarith)
          linarith
        · simp only [if_neg ha, if_neg hb]
          rw [fedLoop_tax_add, fedLoop_tax_add rest b (0 + max 0 (min b u - prev) * rate)]
          push_neg at ha hb
          rw [min_eq_right (le_of_lt ha), min_eq_right (le_of_lt hb)]
          have := ih hrest u
          linarith

theorem fedLoop_lipschitz (l : List (Option ℚ × ℚ)) (R : ℚ) (hR : 0 ≤ R)
    (hr : ∀ p ∈ l, 0 ≤ p.2 ∧ p.2 ≤ R) {a b : ℚ} (hab : a ≤ b) :
    ∀ prev : ℚ, bracketsWF prev l →
      fedLoop l b 0 prev - fedLoop l a 0 prev ≤ R * (b - a) := by
  induction l with
  | nil =>
    intro prev _
    simp only [fedLoop, sub_zero]
    exact mul_nonneg hR (by linarith)
  | cons hd rest ih =>
    obtain ⟨upper, rate⟩ := hd
    have hrate := hr (upper, rate) (by simp)
    have hrest : ∀ p ∈ rest, 0 ≤ p.2 ∧ p.2 ≤ R := fun p hp => hr p (by simp [hp])
    intro prev hwf
    have hstep : ∀ x y c : ℚ, x ≤ y → y - x ≤ c → 0 ≤ c →
        max 0 y * rate - max 0 x * rate ≤ R * c := by
      intro x y c hxy hyx hc
      have h1 : max 0 y - max 0 x ≤ c := max0_sub_le x y c hxy hyx
      have h2 : 0 ≤ max 0 y - max 0 x := by
        have := max_le_max (le_refl (0 : ℚ)) hxy
        linarith
      calc max 0 y * rate - max 0 x * rate = (max 0 y - max 0 x) * rate := by ring
        _ ≤ c * R := mul_le_mul h1 hrate.2 hrate.1 hc
        _ = R * c := mul_comm _ _
    cases upper with
    | none =>
      have hnil : rest = [] := hwf
      subst hnil
      simp only [fedLoop]
      rw [zero_add, zero_add]
      exact hstep (a - prev) (b - prev) (b - a) (by linarith) (by linarith)
        (by linarith)
    | some u =>
      obtain ⟨hpu, hwfr⟩ := hwf
      simp only [fedLoop]
      by_cases hb : b ≤ u
      · have ha : a ≤ u := le_trans hab hb
        simp only [if_pos ha, if_pos hb, zero_add]
        rw [min_eq_left ha, min_eq_left hb]
        exact hstep (a - prev) (b - prev) (b - a) (by linarith) (by linarith)
          (by linarith)
      · push_neg at hb
        by_cases ha : a ≤ u
        · simp only [if_pos ha, if_neg (not_le.mpr hb)]
          rw [fedLoop_tax_add, min_eq_left ha, min_eq_right (le_of_lt hb)]
          have h1 := fedLoop_le rest R hR hrest b u hwfr
          have h2 : max 0 (b - u) = b - u := max_eq_right (by linarith)
          rw [h2] at h1
          have h3 := hstep (a - prev) (u - prev) (u - a) (by linarith)
            (by linarith) (by linarith)
          have hmul : R * (u - a) + R * (b - u) = R * (b - a) := by ring
          linarith
        · push_neg at ha
          simp only [if_neg (not_le.mpr ha), if_neg (not_le.mpr hb)]
          rw [fedLoop_tax_add, fedLoop_tax_add (t := a),
            min_eq_right (le_of_lt ha), min_eq_right (le_of_lt hb)]
          have := ih hrest u hwfr
          linarith

theorem fedBrackets_rates :
    ∀ p ∈ FEDERAL_BRACKETS_SINGLE_2025, 0 ≤ p.2 ∧ p.2 ≤ 37/100 := by
  intro p hp
  fin_cases hp <;> norm_num

theorem fedBrackets_wf : bracketsWF 0 FEDERAL_BRACKETS_SINGLE_2025 := by
  norm_num [bracketsWF, FEDERAL_BRACKETS_SINGLE_2025]


/-! ## Helper lemmas: state-rate interpolation -/

theorem findSegRate_none :
    ∀ (l : List (ℚ × ℚ)) (inc : ℚ), (∀ p ∈ l, p.1 < inc) →
      findSegRate l inc = none
  | [], _, _ => rfl
  | [_], _, _ => rfl
  | lo :: hi :: rest, inc, h => by
    have hhi : hi.1 < inc := h hi (by simp)
    rw [findSegRate, if_neg (by push_neg; intro _; linarith)]
    exact findSegRate_none (hi :: rest) inc
      (fun p hp => h p (List.mem_cons_of_mem lo hp))

theorem interpolate_rate_total (sched : List (ℚ × ℚ)) (inc : ℚ)
    (h : sched ≠ []) : ∃ r, interpolate_rate sched inc = some r := by
  unfold interpolate_rate
  by_cases h1 : sched.length = 1
  · rw [if_pos h1]
    rcases sched with _ | ⟨p, rest⟩
    · exact absurd rfl h
    · exact ⟨p.2, rfl⟩
  · rw [if_neg h1]
    cases hf : findSegRate sched inc with
    | some r => exact ⟨r, rfl⟩
    | none =>
      rw [List.getLast?_eq_getLast sched h]
      exact ⟨_, rfl⟩

theorem interpolate_rate_clamp (sched : List (ℚ × ℚ)) (inc : ℚ)
    (h : sched ≠ []) (hall : ∀ p ∈ sched, p.1 < inc) :
    interpolate_rate sched inc = sched.getLast?.map Prod.snd := by
  unfold interpolate_rate
  by_cases h1 : sched.length = 1
  · rw [if_pos h1]
    rcases sched with _ | ⟨p, _ | ⟨q, rest⟩⟩
    · exact absurd rfl h
    · rfl
    · simp at h1
  · rw [if_neg h1, findSegRate_none sched inc hall]

theorem stateSchedules_nonempty :
    ∀ q ∈ STATE_TAX_SCHEDULE, q.2 ≠ [] := by
  intro q hq
  fin_cases hq <;> simp


/-! ## Helper lemmas: success and error characterizations -/

theorem get_age_group_ok (age : ℤ) (h0 : 0 ≤ age) (h1 : age ≤ 999) :
    ∃ l, get_age_group age = .ok l := by
  unfold get_age_group AGE_BREAKS
  simp only [findAgeGroup]
  split_ifs <;> first | exact ⟨_, rfl⟩ | omega

theorem compute_state_tax_ok (g : ℚ) (state : String)
    (sched : List (ℚ × ℚ))
    (h : dictLookup STATE_TAX_SCHEDULE state = some sched) :
    ∃ t, compute_state_tax g state = .ok t := by
  have hne : sched ≠ [] :=
    stateSchedules_nonempty (state, sched) (dictLookup_mem _ _ _ h)
  obtain ⟨r, hr⟩ := interpolate_rate_total sched g hne
  unfold compute_state_tax
  rw [h]
  simp only [hr]
  exact ⟨_, rfl⟩

theorem compute_state_tax_err (g : ℚ) (state : String)
    (h : dictLookup STATE_TAX_SCHEDULE state = none) :
    compute_state_tax g state = .error .unknownJurisdiction := by
  rw [compute_state_tax, h]

theorem compute_all_taxes_ok (g : ℚ) (state : String)
    (sched : List (ℚ × ℚ))
    (h : dictLookup STATE_TAX_SCHEDULE state = some sched) :
    ∃ t, compute_all_taxes g state = .ok t := by
  obtain ⟨st, hst⟩ := compute_state_tax_ok g state sched h
  unfold compute_all_taxes
  rw [hst]
  exact ⟨_, rfl⟩

theorem compute_all_taxes_err (g : ℚ) (state : String)
    (h : dictLookup STATE_TAX_SCHEDULE state = none) :
    compute_all_taxes g state = .error .unknownJurisdiction := by
  unfold compute_all_taxes
  rw [compute_state_tax_err g state h]
  rfl

theorem compute_essential_expenses_ok (salary : ℚ) (age : ℤ) (state : String)
    (d : ExpData) (blend : Bool) (ag reg : String)
    (hage : get_age_group age = .ok ag)
    (hreg : dictLookup STATE_TO_REGION state = some reg) :
    ∃ e, compute_essential_expenses salary age state d blend = .ok e := by
  unfold compute_essential_expenses get_region_for_state
  rw [hage, hreg]
  exact ⟨_, rfl⟩

theorem compute_essential_expenses_err (salary : ℚ) (age : ℤ) (state : String)
    (d : ExpData) (blend : Bool) (ag : String)
    (hage : get_age_group age = .ok ag)
    (hreg : dictLookup STATE_TO_REGION state = none) :
    compute_essential_expenses salary age state d blend =
      .error .unknownJurisdiction := by
  unfold compute_essential_expenses get_region_for_state
  rw [hage, hreg]
  rfl


/-! ## Helper lemmas: expenditure scaling -/

theorem alpha_mem_bounds : ∀ p ∈ ESSENTIAL_FRACTIONS, 0 ≤ p.2 ∧ p.2 ≤ 1 := by
  intro p hp
  fin_cases hp <;> norm_num

theorem alphaOf_bounds (cat : String) :
    0 ≤ ((dictLookup ESSENTIAL_FRACTIONS cat).getD 0 : ℚ) ∧
    ((dictLookup ESSENTIAL_FRACTIONS cat).getD 0 : ℚ) ≤ 1 := by
  cases h : dictLookup ESSENTIAL_FRACTIONS cat with
  | none => simp
  | some q => simpa using alpha_mem_bounds (cat, q) (dictLookup_mem _ _ _ h)

theorem scale_expenditure_nonneg (b s a β : ℝ) (hb : 0 ≤ b) :
    0 ≤ scale_expenditure b s a β := by
  unfold scale_expenditure
  split_ifs with h
  · exact hb
  · push_neg at h
    exact mul_nonneg hb (Real.rpow_nonneg (le_of_lt (div_pos h.2 h.1)) _)

theorem scale_expenditure_zero (s a β : ℝ) : scale_expenditure 0 s a β = 0 := by
  unfold scale_expenditure
  split_ifs
  · rfl
  · exact zero_mul _

theorem categoryRow_essential_le (d : ExpData) (ag reg : String)
    (w_age w_reg salary avg : ℚ) (cat : String)
    (hwA : 0 ≤ w_age) (hwR : 0 ≤ w_reg)
    (hA : ∀ a c, 0 ≤ d.by_age a c) (hRg : ∀ r c, 0 ≤ d.by_region r c) :
    (categoryRow d ag reg w_age w_reg salary avg cat).essential ≤
      (categoryRow d ag reg w_age w_reg salary avg cat).scaled := by
  unfold categoryRow
  have hbase : (0 : ℝ) ≤
      ((w_age * d.by_age ag cat + w_reg * d.by_region reg cat : ℚ) : ℝ) := by
    have : (0 : ℚ) ≤ w_age * d.by_age ag cat + w_reg * d.by_region reg cat :=
      add_nonneg (mul_nonneg hwA (hA ag cat)) (mul_nonneg hwR (hRg reg cat))
    exact_mod_cast this
  have hsc : (0 : ℝ) ≤ scale_expenditure
      ((w_age * d.by_age ag cat + w_reg * d.by_region reg cat : ℚ) : ℝ)
      (salary : ℝ) (avg : ℝ)
      (((dictLookup INCOME_ELASTICITY cat).getD 1 : ℚ) : ℝ) :=
    scale_expenditure_nonneg _ _ _ _ hbase
  have halpha := alphaOf_bounds cat
  have h1 : (((dictLookup ESSENTIAL_FRACTIONS cat).getD 0 : ℚ) : ℝ) ≤ 1 := by
    exact_mod_cast halpha.2
  calc scale_expenditure _ _ _ _ * (((dictLookup ESSENTIAL_FRACTIONS cat).getD 0 : ℚ) : ℝ)
      ≤ scale_expenditure _ _ _ _ * 1 := by
        apply mul_le_mul_of_nonneg_left h1 hsc
    _ = _ := mul_one _

/-! ## Claim theorems -/

/-- C3: with the fixed 2025 single-filer constants (standard deduction
15,000 and the seven-bracket schedule), `compute_federal_tax 60000` is
exactly 5,161.50 and `compute_federal_tax 100000` is exactly 13,614.00. -/
theorem C3_federal_known_values :
    compute_federal_tax 60000 = 5161.50 ∧
    compute_federal_tax 100000 = 13614.00 := by
  constructor
  · unfold compute_federal_tax STANDARD_DEDUCTION_SINGLE
      FEDERAL_BRACKETS_SINGLE_2025
    norm_num [fedLoop]
    rw [round2_eq_of (n := 516150) (by norm_num)]
    norm_num
  · unfold compute_federal_tax STANDARD_DEDUCTION_SINGLE
      FEDERAL_BRACKETS_SINGLE_2025
    norm_num [fedLoop]
    rw [round2_eq_of (n := 1361400) (by norm_num)]
    norm_num

/-- C4: for every gross_income ≥ 0, `compute_fica` returns social security
equal to 0.062 · min(gross_income, 176100) rounded to cents — hence exactly
10,918.20 whenever gross_income ≥ 176,100 — and a Medicare surcharge equal
to 0 for gross_income ≤ 200,000 and to (gross_income − 200,000) · 0.009
rounded to cents for gross_income > 200,000. -/
theorem C4_fica_cap_surcharge (g : ℚ) (hg : 0 ≤ g) :
    (compute_fica g).social_security = round2 (0.062 * min g 176100) ∧
    (176100 ≤ g → (compute_fica g).social_security = 10918.20) ∧
    (g ≤ 200000 → (compute_fica g).medicare_surcharge = 0) ∧
    (200000 < g → (compute_fica g).medicare_surcharge =
      round2 ((g - 200000) * 0.009)) := by
  refine ⟨by rw [compute_fica_ss, mul_comm], ?_, ?_, ?_⟩
  · intro h
    rw [compute_fica_ss, min_eq_right h,
      round2_eq_of (n := 1091820) (by norm_num)]
    norm_num
  · intro h
    rw [compute_fica_surch, if_neg (not_lt.mpr h)]
  · intro h
    rw [compute_fica_surch, if_pos h]

/-- Witness for C4 at gross_income = 250,000: the wage-base cap and the
surcharge formula both apply. -/
theorem C4_witness :
    (0 : ℚ) ≤ 250000 ∧
    (compute_fica 250000).social_security = 10918.20 ∧
    (compute_fica 250000).medicare_surcharge =
      round2 ((250000 - 200000) * 0.009) := by
  refine ⟨by norm_num, ?_, ?_⟩
  · exact (C4_fica_cap_surcharge 250000 (by norm_num)).2.1 (by norm_num)
  · exact (C4_fica_cap_surcharge 250000 (by norm_num)).2.2.2 (by norm_num)

/-- C5: for every state whose schedule has exactly one breakpoint and every
gross_income ≥ 0, `compute_state_tax` returns gross_income times that
single breakpoint's rate, rounded to cents; in particular
`compute_state_tax 100000 "Texas"` is exactly 0.00. -/
theorem C5_flat_state :
    (∀ (state : String) (p : ℚ × ℚ),
      dictLookup STATE_TAX_SCHEDULE state = some [p] →
      ∀ g : ℚ, 0 ≤ g →
        compute_state_tax g state = .ok (round2 (g * p.2))) ∧
    compute_state_tax 100000 "Texas" = .ok 0 := by
  constructor
  · intro state p h g hg
    unfold compute_state_tax
    rw [h]
    simp [interpolate_rate]
  · unfold compute_state_tax STATE_TAX_SCHEDULE
    norm_num [dictLookup, interpolate_rate, round2_zero]

/-- Witness for C5 at the one-breakpoint state Pennsylvania and
gross_income = 50,000. -/
theorem C5_witness :
    dictLookup STATE_TAX_SCHEDULE "Pennsylvania" = some [(0, 0.0307)] ∧
    (0 : ℚ) ≤ 50000 ∧
    compute_state_tax 50000 "Pennsylvania" = .ok (round2 (50000 * 0.0307)) :=
  ⟨rfl, by norm_num, C5_flat_state.1 "Pennsylvania" (0, 0.0307) rfl 50000
    (by norm_num)⟩

/-- C7: for every baseline B, elasticity β and X > 0,
`scale_expenditure B X X β = B` (Engel scaling at the reference income is
the identity), and whenever the reference income ≤ 0 or the salary ≤ 0 the
baseline is returned unscaled. -/
theorem C7_engel_identity :
    (∀ (B β X : ℝ), 0 < X → scale_expenditure B X X β = B) ∧
    (∀ (B s a β : ℝ), a ≤ 0 ∨ s ≤ 0 → scale_expenditure B s a β = B) := by
  constructor
  · intro B β X hX
    unfold scale_expenditure
    rw [if_neg (by push_neg; constructor <;> linarith)]
    rw [div_self (ne_of_gt hX), Real.one_rpow, mul_one]
  · intro B s a β h
    unfold scale_expenditure
    rw [if_pos h]

/-- Witness for C7 at (B, X, β) = (7, 3, 2) and at a degenerate reference
income −1. -/
theorem C7_witness :
    (0 : ℝ) < 3 ∧ scale_expenditure 7 3 3 2 = 7 ∧
    ((-1 : ℝ) ≤ 0 ∨ (5 : ℝ) ≤ 0) ∧ scale_expenditure 7 5 (-1) 2 = 7 :=
  ⟨by norm_num, C7_engel_identity.1 7 2 3 (by norm_num),
   Or.inl (by norm_num),
   C7_engel_identity.2 7 5 (-1) 2 (Or.inl (by norm_num))⟩

/-- C9: `compute_federal_tax` is non-decreasing in gross_income, and the
marginal tax on one additional dollar never exceeds the top bracket's rate
0.37 (the two properties the claim spells out for "non-decreasing and
piecewise-linear"). -/
theorem C9_federal_monotone :
    (∀ a b : ℚ, a ≤ b → compute_federal_tax a ≤ compute_federal_tax b) ∧
    (∀ g : ℚ, compute_federal_tax (g + 1) - compute_federal_tax g ≤ 0.37) := by
  have hrates0 : ∀ p ∈ FEDERAL_BRACKETS_SINGLE_2025, 0 ≤ p.2 :=
    fun p hp => (fedBrackets_rates p hp).1
  constructor
  · intro a b hab
    unfold compute_federal_tax
    apply round2_mono
    exact fedLoop_mono FEDERAL_BRACKETS_SINGLE_2025 hrates0
      (max_le_max le_rfl (by linarith)) 0
  · intro g
    unfold compute_federal_tax
    set ta := max 0 (g - STANDARD_DEDUCTION_SINGLE) with hta
    set tb := max 0 (g + 1 - STANDARD_DEDUCTION_SINGLE) with htb
    have hab : ta ≤ tb := max_le_max le_rfl (by linarith)
    have hdiff : tb - ta ≤ 1 :=
      max0_sub_le (g - STANDARD_DEDUCTION_SINGLE)
        (g + 1 - STANDARD_DEDUCTION_SINGLE) 1 (by linarith) (by linarith)
    have hlip := fedLoop_lipschitz FEDERAL_BRACKETS_SINGLE_2025 (37/100)
      (by norm_num) fedBrackets_rates hab 0 fedBrackets_wf
    have hR : (37 : ℚ)/100 * (tb - ta) ≤ 37/100 := by nlinarith
    have h := round2_le_add_int
      (x := fedLoop FEDERAL_BRACKETS_SINGLE_2025 ta 0 0)
      (y := fedLoop FEDERAL_BRACKETS_SINGLE_2025 tb 0 0) (n := 37)
      (by push_cast; linarith)
    have h37 : (0.37 : ℚ) = (37 : ℤ) / 100 := by norm_num
    rw [h37]
    push_cast
    push_cast at h
    linarith

/-- Witness for C9: monotonicity applied at 0 ≤ 1, and the one-dollar
marginal bound applied at gross_income = 100,000. -/
theorem C9_witness :
    (0 : ℚ) ≤ 1 ∧ compute_federal_tax 0 ≤ compute_federal_tax 1 ∧
    compute_federal_tax (100000 + 1) - compute_federal_tax 100000 ≤ 0.37 :=
  ⟨by norm_num, C9_federal_monotone.1 0 1 (by norm_num),
   C9_federal_monotone.2 100000⟩

/-- C10: for every gross_income between 0 and the standard deduction
15,000, `compute_federal_tax` returns exactly 0 (taxable income clamps to
zero). -/
theorem C10_federal_zero_below_deduction (g : ℚ) (h0 : 0 ≤ g)
    (h1 : g ≤ 15000) : compute_federal_tax g = 0 := by
  unfold compute_federal_tax STANDARD_DEDUCTION_SINGLE
    FEDERAL_BRACKETS_SINGLE_2025
  have htx : max 0 (g - 15000) = 0 := by
    rw [max_eq_left]; linarith
  rw [htx]
  norm_num [fedLoop, round2_zero]

/-- Witness for C10 at gross_income = 10,000. -/
theorem C10_witness :
    (0 : ℚ) ≤ 10000 ∧ (10000 : ℚ) ≤ 15000 ∧
    compute_federal_tax 10000 = 0 :=
  ⟨by norm_num, by norm_num,
   C10_federal_zero_below_deduction 10000 (by norm_num) (by norm_num)⟩

/-- C6: for every schedule in the state-tax table and every income ≥ 0 the
rate interpolation is total (always returns a rate, with the guarded
zero-width branch instead of a division by zero) and clamps to the last
breakpoint's rate beyond every breakpoint; at Virginia's zero-width segment
(two consecutive breakpoints at 17,001) it returns the lower breakpoint's
rate 0.030. -/
theorem C6_interpolation_total :
    (∀ (state : String) (sched : List (ℚ × ℚ)),
      dictLookup STATE_TAX_SCHEDULE state = some sched →
        (∀ income : ℚ, 0 ≤ income →
          ∃ r, interpolate_rate sched income = some r) ∧
        (∀ income : ℚ, (∀ p ∈ sched, p.1 < income) →
          interpolate_rate sched income = sched.getLast?.map Prod.snd)) ∧
    (∀ vsched : List (ℚ × ℚ),
      dictLookup STATE_TAX_SCHEDULE "Virginia" = some vsched →
        vsched.get? 2 = some (17001, 0.030) ∧
        vsched.get? 3 = some (17001, 0.050) ∧
        interpolate_rate vsched 17001 = some 0.030) := by
  constructor
  · intro state sched hs
    have hne : sched ≠ [] :=
      stateSchedules_nonempty (state, sched) (dictLookup_mem _ _ _ hs)
    exact ⟨fun income _ => interpolate_rate_total sched income hne,
      fun income hall => interpolate_rate_clamp sched income hne hall⟩
  · intro vsched hv
    have hx : vsched = [(0, 0.00), (17000, 0.020), (17001, 0.030),
        (17001, 0.050), (50000, 0.055), (100000, 0.057), (200000, 0.058)] := by
      simp [dictLookup, STATE_TAX_SCHEDULE] at hv
      exact hv.symm
    subst hx
    refine ⟨rfl, rfl, ?_⟩
    norm_num [interpolate_rate, findSegRate]

/-- Witness for C6 on Texas's one-breakpoint schedule at income 123
(covers the totality and the beyond-last-breakpoint clamp). -/
theorem C6_witness :
    dictLookup STATE_TAX_SCHEDULE "Texas" = some [(0, 0.0)] ∧
    (0 : ℚ) ≤ 123 ∧
    (∃ r, interpolate_rate [(0, 0.0)] 123 = some r) ∧
    (∀ p ∈ [((0 : ℚ), (0.0 : ℚ))], p.1 < 123) ∧
    interpolate_rate [(0, 0.0)] 123 =
      ([((0 : ℚ), (0.0 : ℚ))].getLast?.map Prod.snd) := by
  have h := C6_interpolation_total.1 "Texas" [(0, 0.0)] rfl
  have hall : ∀ p ∈ [((0 : ℚ), (0.0 : ℚ))], p.1 < 123 := by
    intro p hp
    fin_cases hp
    norm_num
  exact ⟨rfl, by norm_num, h.1 123 (by norm_num), hall, h.2 123 hall⟩

/-- C8: with non-negative baseline values in the expenditure table, every
category's essential amount is at most its scaled amount (the essential
fractions all lie in [0,1]) and the returned total_essential is at most the
returned total_all. -/
theorem C8_essential_le_total (salary : ℚ) (age : ℤ) (state : String)
    (d : ExpData) (blend : Bool)
    (hA : ∀ a c, 0 ≤ d.by_age a c) (hRg : ∀ r c, 0 ≤ d.by_region r c) :
    ∀ e, compute_essential_expenses salary age state d blend = .ok e →
      (∀ p ∈ e.by_category, p.2.essential ≤ p.2.scaled) ∧
      e.total_essential ≤ e.total_all := by
  intro e he
  cases hag : get_age_group age with
  | error err =>
    unfold compute_essential_expenses at he
    rw [hag] at he
    exact Except.noConfusion he
  | ok ag =>
    cases hreg : dictLookup STATE_TO_REGION state with
    | none =>
      rw [compute_essential_expenses_err salary age state d blend ag hag hreg]
        at he
      exact Except.noConfusion he
    | some reg =>
      unfold compute_essential_expenses get_region_for_state at he
      rw [hag, hreg] at he
      simp only [Except.bind] at he
      injection he with he
      subst he
      have hwA : (0 : ℚ) ≤ if blend then 0.6 else 1 := by
        split_ifs <;> norm_num
      have hwR : (0 : ℚ) ≤ if blend then 0.4 else 0 := by
        split_ifs <;> norm_num
      have hrow := fun cat => categoryRow_essential_le d ag reg
        (if blend then 0.6 else 1) (if blend then 0.4 else 0) salary
        ((d.mean_income_by_age ag).getD
          ((dictLookup AVG_INCOME_BY_AGE ag).getD 0))
        cat hwA hwR hA hRg
      constructor
      · intro p hp
        simp only [List.mem_map] at hp
        obtain ⟨cat, _, rfl⟩ := hp
        exact hrow cat
      · apply round2_mono
        apply List.sum_le_sum
        intro p hp
        simp only [List.mem_map] at hp
        obtain ⟨cat, _, rfl⟩ := hp
        exact hrow cat

/-- Witness for C8 on the all-zero expenditure table at
(65,000, age 30, Texas). -/
theorem C8_witness :
    (∀ a c, (0 : ℚ) ≤ zeroExpData.by_age a c) ∧
    (∀ r c, (0 : ℚ) ≤ zeroExpData.by_region r c) ∧
    ∃ e, compute_essential_expenses 65000 30 "Texas" zeroExpData true =
        .ok e ∧ e.total_essential ≤ e.total_all := by
  obtain ⟨e, he⟩ := compute_essential_expenses_ok 65000 30 "Texas"
    zeroExpData true "25-34" "South" rfl rfl
  exact ⟨fun a c => le_refl 0, fun r c => le_refl 0, e, he,
    (C8_essential_le_total 65000 30 "Texas" zeroExpData true
      (fun a c => le_refl 0) (fun r c => le_refl 0) e he).2⟩

/-- C2: `compute_disposable_income` fails with InvalidInput exactly when
gross_income < 0 or age is outside [0,120]; for validated gross_income and
age it fails with UnknownJurisdiction exactly when the state is absent from
the state-tax schedule or from the state→region map (no internal recovery
and no fallback jurisdiction). -/
theorem C2_error_boundary (g : ℚ) (age : ℤ) (state : String) (d : ExpData)
    (blend : Bool) :
    (compute_disposable_income g age state d blend = .error .invalidInput ↔
      (g < 0 ∨ age < 0 ∨ 120 < age)) ∧
    (0 ≤ g → 0 ≤ age → age ≤ 120 →
      (compute_disposable_income g age state d blend =
          .error .unknownJurisdiction ↔
        (dictLookup STATE_TAX_SCHEDULE state = none ∨
         dictLookup STATE_TO_REGION state = none))) := by
  by_cases hneg : g < 0
  · constructor
    · have hres : compute_disposable_income g age state d blend =
          .error .invalidInput := by
        unfold compute_disposable_income
        rw [if_pos hneg]
      rw [hres]
      simp [hneg]
    · intro hg
      exact absurd hneg (not_lt.mpr hg)
  · push_neg at hneg
    by_cases hage : 0 ≤ age ∧ age ≤ 120
    · cases hsched : dictLookup STATE_TAX_SCHEDULE state with
      | none =>
        have hres : compute_disposable_income g age state d blend =
            .error .unknownJurisdiction := by
          unfold compute_disposable_income
          rw [if_neg (not_lt.mpr hneg), if_neg (not_not_intro hage),
            compute_all_taxes_err g state hsched]
          rfl
        constructor
        · rw [hres]
          refine iff_of_false (fun h => ?_) ?_
          · injection h with h
            exact Err.noConfusion h
          · push_neg
            exact ⟨hneg, hage.1, hage.2⟩
        · intro _ _ _
          rw [hres]
          exact iff_of_true rfl (Or.inl rfl)
      | some sched =>
        obtain ⟨t, ht⟩ := compute_all_taxes_ok g state sched hsched
        obtain ⟨ag, hag⟩ := get_age_group_ok age hage.1 (by omega)
        cases hreg : dictLookup STATE_TO_REGION state with
        | none =>
          have hres : compute_disposable_income g age state d blend =
              .error .unknownJurisdiction := by
            unfold compute_disposable_income
            rw [if_neg (not_lt.mpr hneg), if_neg (not_not_intro hage), ht,
              compute_essential_expenses_err g age state d blend ag hag hreg]
            rfl
          constructor
          · rw [hres]
            refine iff_of_false (fun h => ?_) ?_
            · injection h with h
              exact Err.noConfusion h
            · push_neg
              exact ⟨hneg, hage.1, hage.2⟩
          · intro _ _ _
            rw [hres]
            exact iff_of_true rfl (Or.inr rfl)
        | some reg =>
          obtain ⟨e, he⟩ :=
            compute_essential_expenses_ok g age state d blend ag reg hag hreg
          have hres : ∃ r, compute_disposable_income g age state d blend =
              .ok r := by
            unfold compute_disposable_income
            rw [if_neg (not_lt.mpr hneg), if_neg (not_not_intro hage), ht, he]
            exact ⟨_, rfl⟩
          obtain ⟨r, hr⟩ := hres
          constructor
          · rw [hr]
            refine iff_of_false (fun h => Except.noConfusion h) ?_
            push_neg
            exact ⟨hneg, hage.1, hage.2⟩
          · intro _ _ _
            rw [hr]
            refine iff_of_false (fun h => Except.noConfusion h) ?_
            simp
    · have hres : compute_disposable_income g age state d blend =
          .error .invalidInput := by
        unfold compute_disposable_income
        rw [if_neg (not_lt.mpr hneg), if_pos hage]
      constructor
      · rw [hres]
        simp only [true_iff]
        rcases not_and_or.mp hage with h | h
        · exact Or.inr (Or.inl (not_le.mp h))
        · exact Or.inr (Or.inr (not_le.mp h))
      · intro _ h0 h1
        exact absurd ⟨h0, h1⟩ hage

/-- Witness for C2: a negative income raises InvalidInput and an unknown
state raises UnknownJurisdiction. -/
theorem C2_witness :
    compute_disposable_income (-1) 30 "Texas" zeroExpData true =
      .error .invalidInput ∧
    compute_disposable_income 65000 30 "Atlantis" zeroExpData true =
      .error .unknownJurisdiction := by
  constructor
  · exact (C2_error_boundary (-1) 30 "Texas" zeroExpData true).1.mpr
      (Or.inl (by norm_num))
  · exact ((C2_error_boundary 65000 30 "Atlantis" zeroExpData true).2
      (by norm_num) (by norm_num) (by norm_num)).mpr (Or.inl rfl)

/-- C1 counterexample: at gross_income = 65,000, age 30, Texas, with an
all-zero expenditure table, the computation succeeds with
disposable_income = 54,113.50 but di_fraction = 0.8325, which is the
4-decimal rounding of 54,113.5/65,000 = 0.83251538…, not the quotient
itself — refuting the claim's "di_fraction equals disposable_income
divided by gross_income". -/
theorem C1_di_fraction_counterexample :
    ∃ r, compute_disposable_income 65000 30 "Texas" zeroExpData true =
        .ok r ∧
      r.disposable_income = 54113.5 ∧ r.di_fraction = 0.8325 ∧
      r.di_fraction * 65000 ≠ r.disposable_income ∧
      r.di_fraction ≠ r.disposable_income / 65000 := by
  have hfed : compute_federal_tax 65000 = 5914 := by
    unfold compute_federal_tax STANDARD_DEDUCTION_SINGLE
      FEDERAL_BRACKETS_SINGLE_2025
    norm_num [fedLoop]
    rw [round2_eq_of (n := 591400) (by norm_num)]
    norm_num
  have hficaT : (compute_fica 65000).total = 4972.5 := by
    have i0 : round2 ((4030 : ℚ)) = 4030 :=
      round2_id (n := 403000) (by norm_num)
    have i1 : round2 ((1885 : ℚ) / 2) = 1885 / 2 :=
      round2_id (n := 94250) (by norm_num)
    have i2 : round2 ((9945 : ℚ) / 2) = 9945 / 2 :=
      round2_id (n := 497250) (by norm_num)
    norm_num [compute_fica, SS_RATE, SS_WAGE_BASE, MEDICARE_RATE,
      MEDICARE_SURCHARGE_RATE, MEDICARE_SURCHARGE_THRESHOLD, min_def, i0, i1]
    norm_num [i2]
  have hstate : compute_state_tax 65000 "Texas" = .ok 0 := by
    unfold compute_state_tax STATE_TAX_SCHEDULE
    norm_num [dictLookup, interpolate_rate, round2_zero]
  have hsched : dictLookup STATE_TAX_SCHEDULE "Texas" = some [(0, 0.0)] := by
    norm_num [dictLookup, STATE_TAX_SCHEDULE]
  obtain ⟨T, hT⟩ := compute_all_taxes_ok 65000 "Texas" _ hsched
  have hTt : T.total = 10886.5 := by
    unfold compute_all_taxes at hT
    rw [hstate] at hT
    simp only [Except.bind] at hT
    injection hT with hT
    rw [← hT]
    show round2 (compute_federal_tax 65000 + (compute_fica 65000).total + 0)
      = _
    rw [hfed, hficaT]
    norm_num
    exact round2_id (n := 1088650) (by norm_num)
  have hag : get_age_group 30 = .ok "25-34" := rfl
  have hreg : dictLookup STATE_TO_REGION "Texas" = some "South" := rfl
  obtain ⟨e, he⟩ :=
    compute_essential_expenses_ok 65000 30 "Texas" zeroExpData true
      "25-34" "South" hag hreg
  have hesst : e.total_essential = 0 := by
    unfold compute_essential_expenses get_region_for_state at he
    rw [hag, hreg] at he
    simp only [Except.bind] at he
    injection he with he
    rw [← he]
    show round2 ((List.map _ (List.map _ zeroExpData.categories)).sum) = 0
    norm_num [zeroExpData, ESSENTIAL_FRACTIONS, categoryRow,
      scale_expenditure_zero, round2_zero]
  unfold compute_disposable_income
  rw [if_neg (by norm_num), if_neg (by norm_num), hT, he]
  refine ⟨_, rfl, ?_, ?_, ?_, ?_⟩
  · show round2 (((65000 : ℚ) : ℝ) - ((T.total : ℚ) : ℝ) - e.total_essential)
      = _
    rw [hTt, hesst]
    push_cast
    norm_num
    exact round2_id (α := ℝ) (n := 5411350) (by norm_num)
  · show round4 (if (65000 : ℚ) > 0 then
        (((65000 : ℚ) : ℝ) - ((T.total : ℚ) : ℝ) - e.total_essential) /
          ((65000 : ℚ) : ℝ) else 0) = _
    rw [if_pos (by norm_num)]
    rw [hTt, hesst]
    push_cast
    norm_num
    rw [round4_eq_of_bounds (n := 8325) (by norm_num) (by norm_num)]
    norm_num
  · show round4 (if (65000 : ℚ) > 0 then
        (((65000 : ℚ) : ℝ) - ((T.total : ℚ) : ℝ) - e.total_essential) /
          ((65000 : ℚ) : ℝ) else 0) * 65000 ≠
      round2 (((65000 : ℚ) : ℝ) - ((T.total : ℚ) : ℝ) - e.total_essential)
    rw [if_pos (by norm_num), hTt, hesst]
    push_cast
    norm_num
    rw [round4_eq_of_bounds (n := 8325) (by norm_num) (by norm_num),
      round2_id (α := ℝ) (n := 5411350) (by norm_num)]
    norm_num
  · show round4 (if (65000 : ℚ) > 0 then
        (((65000 : ℚ) : ℝ) - ((T.total : ℚ) : ℝ) - e.total_essential) /
          ((65000 : ℚ) : ℝ) else 0) ≠
      round2 (((65000 : ℚ) : ℝ) - ((T.total : ℚ) : ℝ) - e.total_essential)
        / 65000
    rw [if_pos (by norm_num), hTt, hesst]
    push_cast
    norm_num
    rw [round4_eq_of_bounds (n := 8325) (by norm_num) (by norm_num),
      round2_id (α := ℝ) (n := 5411350) (by norm_num)]
    norm_num

/-- C1 (amended): for every valid input (gross_income ≥ 0, age in [0,120],
state in both jurisdiction tables) the computation returns an ordinary
result — never an error, even when disposable income is negative — whose
disposable_income equals gross_income minus the taxes total minus the
essential total rounded to cents, and whose di_fraction equals the
(pre-rounding) disposable income divided by gross_income **rounded to four
decimal places**, with di_fraction = 0 when gross_income = 0. -/
theorem C1_disposable_income_amended (g : ℚ) (age : ℤ) (state : String)
    (d : ExpData) (blend : Bool)
    (hg : 0 ≤ g) (h0 : 0 ≤ age) (h1 : age ≤ 120)
    (hs : (dictLookup STATE_TAX_SCHEDULE state).isSome)
    (hr : (dictLookup STATE_TO_REGION state).isSome) :
    ∃ r, compute_disposable_income g age state d blend = .ok r ∧
      r.disposable_income =
        round2 ((g : ℝ) - (r.total_tax : ℝ) - r.total_essential) ∧
      (0 < g → r.di_fraction =
        round4 (((g : ℝ) - (r.total_tax : ℝ) - r.total_essential) /
          (g : ℝ))) ∧
      (g = 0 → r.di_fraction = 0) := by
  obtain ⟨sched, hsched⟩ := Option.isSome_iff_exists.mp hs
  obtain ⟨reg, hreg⟩ := Option.isSome_iff_exists.mp hr
  obtain ⟨t, ht⟩ := compute_all_taxes_ok g state sched hsched
  obtain ⟨ag, hag⟩ := get_age_group_ok age h0 (by omega)
  obtain ⟨e, he⟩ :=
    compute_essential_expenses_ok g age state d blend ag reg hag hreg
  unfold compute_disposable_income
  rw [if_neg (not_lt.mpr hg), if_neg (not_not_intro ⟨h0, h1⟩), ht, he]
  refine ⟨_, rfl, rfl, fun hpos => ?_, fun hzero => ?_⟩
  · show round4 (if g > 0 then
        ((g : ℝ) - ((t.total : ℚ) : ℝ) - e.total_essential) / (g : ℝ)
      else 0) = _
    rw [if_pos (show g > 0 from hpos)]
  · show round4 (if g > 0 then
        ((g : ℝ) - ((t.total : ℚ) : ℝ) - e.total_essential) / (g : ℝ)
      else 0) = 0
    rw [if_neg (by simp [hzero]), round4_zero]

/-- Witness for C1's amended theorem at (60,000, age 40, Michigan) on the
all-zero expenditure table. -/
theorem C1_witness :
    (0 : ℚ) ≤ 60000 ∧ (0 : ℤ) ≤ 40 ∧ (40 : ℤ) ≤ 120 ∧
    (dictLookup STATE_TAX_SCHEDULE "Michigan").isSome ∧
    (dictLookup STATE_TO_REGION "Michigan").isSome ∧
    (∃ r, compute_disposable_income 60000 40 "Michigan" zeroExpData true =
        .ok r ∧
      r.disposable_income =
        round2 (((60000 : ℚ) : ℝ) - (r.total_tax : ℝ) - r.total_essential) ∧
      ((0 : ℚ) < 60000 → r.di_fraction =
        round4 ((((60000 : ℚ) : ℝ) - (r.total_tax : ℝ) - r.total_essential) /
          ((60000 : ℚ) : ℝ))) ∧
      ((60000 : ℚ) = 0 → r.di_fraction = 0)) := by
  refine ⟨by norm_num, by norm_num, by norm_num, rfl, rfl, ?_⟩
  exact C1_disposable_income_amended 60000 40 "Michigan" zeroExpData true
    (by norm_num) (by norm_num) (by norm_num) rfl rfl
